import Mathlib

/-!
# UlteraSpace: the configuration header `config_template.h`

The header consists of namespace-scope declarations with initialisers and one
struct definition.  This development embeds

* the initialiser of every declaration (as a Lean constant of the same name),
* the declared type of every name (`declarations`, `structFields`), kept as a
  small syntax tree of C++ types so that the position of each `const` is
  visible, and
* the C++ rule for the assignment statement `lvalue = value;` over a store of
  the scalar objects the header creates (`assign`).

String literals are ASCII; a `const char*` initialised from a literal is
represented by the string it points to.  `int` is `Int`, `unsigned long` is
`Nat` (with the 32-bit bound of the target stated where it matters) and the
`double` literal `10.0` is the exact rational `10`.
-/

namespace UlteraSpace

/-! ## Initialisers -/

/-- Source: `const char* WIFI_AP_SSID = "UlTeRa_SpAcE";` -/
def WIFI_AP_SSID : String := "UlTeRa_SpAcE"

/-- Source: `const char* WIFI_AP_PASSWORD = "12345678";` -/
def WIFI_AP_PASSWORD : String := "12345678"

/-- Source: `struct KnownNetwork { const char* ssid; const char* password; };` -/
structure KnownNetwork where
  ssid : String
  password : String
  deriving DecidableEq, Repr

/-- Source: `const KnownNetwork knownNetworks[] = { {..}, {..} };` -/
def knownNetworks : Array KnownNetwork :=
  #[⟨"YourHomeWiFi", "your-wifi-password"⟩, ⟨"YourOfficeWiFi", "office-password"⟩]

/-- Source: `const char* GPRS_APN = "internet";` -/
def GPRS_APN : String := "internet"

/-- Source: `const char* GPRS_USER = "";` -/
def GPRS_USER : String := ""

/-- Source: `const char* GPRS_PASSWORD = "";` -/
def GPRS_PASSWORD : String := ""

/-- Source: `const char* SERVER_URL = "http://yourserver.com/api/gps";` -/
def SERVER_URL : String := "http://yourserver.com/api/gps"

/-- Source: `const int SERVER_PORT = 80;` -/
def SERVER_PORT : Int := 80

/-- Source: `const unsigned long DATA_SEND_INTERVAL_MS = 30000;` -/
def DATA_SEND_INTERVAL_MS : Nat := 30000

/-- Source: `const unsigned long GPRS_CHECK_INTERVAL_MS = 60000;` -/
def GPRS_CHECK_INTERVAL_MS : Nat := 60000

/-- Source: `const double SIGNIFICANT_DISTANCE_METERS = 10.0;` (the literal as an exact rational). -/
def SIGNIFICANT_DISTANCE_METERS : ℚ := 10

/-- Source: `const unsigned long LOG_MAX_INTERVAL_MS = 30000;` -/
def LOG_MAX_INTERVAL_MS : Nat := 30000

/-- Number of bytes of a C string before its terminating NUL. -/
def strlen (s : String) : Nat := s.utf8ByteSize

/-- Largest value of `unsigned long` on the 32-bit target. -/
def ULONG_MAX : Nat := 2 ^ 32 - 1

/-! ## Declared types -/

/-- C++ types as the header's declarators spell them; `const t` is the
const-qualified version of `t`, so `ptr (const char)` is `const char*` and
`const (ptr (const char))` would be `const char* const`. -/
inductive CType where
  | char
  | int
  | unsignedLong
  | double
  | struct (name : String)
  | const (t : CType)
  | ptr (t : CType)
  | array (t : CType) (n : Nat)
  deriving DecidableEq, Repr

/-- The namespace-scope declarations of the header, in source order, each
with its declared type.  The bound of `knownNetworks[]` is the number of its
initialisers, 2. -/
def declarations : List (String × CType) :=
  [ ("WIFI_AP_SSID", .ptr (.const .char)),
    ("WIFI_AP_PASSWORD", .ptr (.const .char)),
    ("knownNetworks", .array (.const (.struct "KnownNetwork")) 2),
    ("GPRS_APN", .ptr (.const .char)),
    ("GPRS_USER", .ptr (.const .char)),
    ("GPRS_PASSWORD", .ptr (.const .char)),
    ("SERVER_URL", .ptr (.const .char)),
    ("SERVER_PORT", .const .int),
    ("DATA_SEND_INTERVAL_MS", .const .unsignedLong),
    ("GPRS_CHECK_INTERVAL_MS", .const .unsignedLong),
    ("SIGNIFICANT_DISTANCE_METERS", .const .double),
    ("LOG_MAX_INTERVAL_MS", .const .unsignedLong) ]

/-- Members of the structs the header defines. -/
def structFields (s : String) : List (String × CType) :=
  if s = "KnownNetwork" then
    [("ssid", .ptr (.const .char)), ("password", .ptr (.const .char))]
  else []

/-- Expressions that designate an object: a declared name, an element of an
array (or of what a pointer points to), a member of a struct. -/
inductive LValue where
  | var (name : String)
  | index (a : LValue) (i : Nat)
  | member (e : LValue) (field : String)
  deriving DecidableEq, Repr

/-- Const-qualify a type (qualifying twice is the same as once). -/
def CType.addConst : CType → CType
  | .const t => .const t
  | t => .const t

/-- Type of an lvalue expression.  An element of an array has the array's
element type; a member reached through a const struct is itself const. -/
def typeOf : LValue → Option CType
  | .var x => declarations.lookup x
  | .index a i =>
    match typeOf a with
    | some (.array t n) => if i < n then some t else none
    | some (.ptr t) => some t
    | _ => none
  | .member e f =>
    match typeOf e with
    | some (.struct s) => (structFields s).lookup f
    | some (.const (.struct s)) => ((structFields s).lookup f).map CType.addConst
    | _ => none

/-- An lvalue of this type may stand on the left of `=`: it is neither
const-qualified nor an array. -/
def CType.modifiable : CType → Bool
  | .const _ => false
  | .array _ _ => false
  | _ => true

/-! ## Store and assignment -/

/-- Scalar values: a pointer to a string literal, an `int`, an
`unsigned long`, a `double`. -/
inductive Value where
  | str (s : String)
  | int (i : Int)
  | ulong (n : Nat)
  | dbl (q : ℚ)
  deriving DecidableEq

/-- A scalar value can be assigned to an object of this (unqualified) type. -/
def fits : CType → Value → Bool
  | .ptr (.const .char), .str _ => true
  | .int, .int _ => true
  | .unsignedLong, .ulong _ => true
  | .double, .dbl _ => true
  | _, _ => false

/-- The value every scalar object holds. -/
abbrev Store := LValue → Option Value

/-- Store after the header's initialisers have run. -/
def initialStore : Store := fun lv =>
  match lv with
  | .var x =>
    if x = "WIFI_AP_SSID" then some (.str WIFI_AP_SSID)
    else if x = "WIFI_AP_PASSWORD" then some (.str WIFI_AP_PASSWORD)
    else if x = "GPRS_APN" then some (.str GPRS_APN)
    else if x = "GPRS_USER" then some (.str GPRS_USER)
    else if x = "GPRS_PASSWORD" then some (.str GPRS_PASSWORD)
    else if x = "SERVER_URL" then some (.str SERVER_URL)
    else if x = "SERVER_PORT" then some (.int SERVER_PORT)
    else if x = "DATA_SEND_INTERVAL_MS" then some (.ulong DATA_SEND_INTERVAL_MS)
    else if x = "GPRS_CHECK_INTERVAL_MS" then some (.ulong GPRS_CHECK_INTERVAL_MS)
    else if x = "SIGNIFICANT_DISTANCE_METERS" then some (.dbl SIGNIFICANT_DISTANCE_METERS)
    else if x = "LOG_MAX_INTERVAL_MS" then some (.ulong LOG_MAX_INTERVAL_MS)
    else none
  | .member (.index (.var x) i) f =>
    if x = "knownNetworks" then
      if f = "ssid" then knownNetworks[i]?.map (fun n => Value.str n.ssid)
      else if f = "password" then knownNetworks[i]?.map (fun n => Value.str n.password)
      else none
    else none
  | _ => none

/-- The statement `lv = v;`.  It is well-formed when `lv` has a modifiable
type that `v` fits and designates an object; it then stores `v` there and
leaves every other object alone.  An ill-formed statement gives `none`. -/
def assign (σ : Store) (lv : LValue) (v : Value) : Option Store :=
  match typeOf lv with
  | none => none
  | some t =>
    if t.modifiable && fits t v && (σ lv).isSome then
      some (fun l => if l = lv then some v else σ l)
    else none

/-- Value `lv` denotes after `lv = v;` has run from `σ` (`none` when the
statement is ill-formed). -/
def valueAfterAssign (σ : Store) (lv : LValue) (v : Value) : Option Value :=
  (assign σ lv v).bind (fun σ' => σ' lv)


/-! ## Reading the array -/

/-- Loop `for (i = start; i < start + k; i++) out.push(a[i]);`, stopping
at the end of the array. -/
def collectFrom {α : Type} (a : Array α) : Nat → Nat → List α
  | _, 0 => []
  | i, k + 1 =>
    match a[i]? with
    | some x => x :: collectFrom a (i + 1) k
    | none => []

/-- Elements of an array read by ascending index, from 0 up to its size. -/
def readAscending {α : Type} (a : Array α) : List α := collectFrom a 0 a.size

/-- Modelled from the spec: the accessor getKnownNetworks is not part of the
header; following the spec it returns the priority list unchanged, here the
sequence read from `knownNetworks` by ascending index. -/
def getKnownNetworks : List KnownNetwork := readAscending knownNetworks

/-! ## Lemmas -/

theorem collectFrom_eq {α : Type} (a : Array α) (k i : Nat) :
    collectFrom a i k = (a.toList.drop i).take k := by
  induction k generalizing i with
  | zero => simp [collectFrom]
  | succ k ih =>
    unfold collectFrom
    by_cases h : i < a.size
    · have h1 : a[i]? = some a[i] := getElem?_pos a i h
      rw [h1]
      simp only
      rw [ih]
      have h2 : i < a.toList.length := by simpa using h
      rw [List.drop_eq_getElem_cons h2]
      simp
    · have h1 : a[i]? = none := getElem?_neg a i h
      rw [h1]
      have h2 : a.toList.length ≤ i := by
        have h3 : a.toList.length = a.size := rfl
        omega
      simp [List.drop_eq_nil_of_le h2]

theorem readAscending_eq {α : Type} (a : Array α) : readAscending a = a.toList := by
  unfold readAscending
  rw [collectFrom_eq]
  simp

/-- A well-formed assignment writes through a modifiable lvalue. -/
theorem assign_target_modifiable {σ σ' : Store} {lv : LValue} {v : Value}
    (h : assign σ lv v = some σ') :
    ∃ t, typeOf lv = some t ∧ t.modifiable = true := by
  unfold assign at h
  cases ht : typeOf lv with
  | none => simp [ht] at h
  | some t =>
    refine ⟨t, rfl, ?_⟩
    simp only [ht] at h
    by_cases hm : t.modifiable = true
    · exact hm
    · simp [hm] at h

/-- A well-formed assignment leaves every object other than its target alone. -/
theorem assign_other {σ σ' : Store} {lv l : LValue} {v : Value}
    (h : assign σ lv v = some σ') (hne : l ≠ lv) : σ' l = σ l := by
  unfold assign at h
  cases ht : typeOf lv with
  | none => simp [ht] at h
  | some t =>
    simp only [ht] at h
    split at h
    · simp only [Option.some.injEq] at h
      subst h
      simp [hne]
    · simp at h

/-- No assignment statement changes an object whose type is not modifiable:
a statement that targets it is ill-formed and any other leaves it alone. -/
theorem const_object_unchanged {σ σ' : Store} {lv l : LValue} {v : Value} {t : CType}
    (h : assign σ lv v = some σ') (ht : typeOf l = some t)
    (hc : t.modifiable = false) : σ' l = σ l := by
  apply assign_other h
  intro he
  subst he
  obtain ⟨t', ht', hm⟩ := assign_target_modifiable h
  rw [ht] at ht'
  cases ht'
  rw [hc] at hm
  cases hm

/-- The objects the header declares `const` (the port, the three intervals,
the distance, the array, its elements and their members) have a type that is
not modifiable. -/
theorem const_declarations_not_modifiable :
    (typeOf (.var "SERVER_PORT")).map CType.modifiable = some false ∧
    (typeOf (.var "DATA_SEND_INTERVAL_MS")).map CType.modifiable = some false ∧
    (typeOf (.var "GPRS_CHECK_INTERVAL_MS")).map CType.modifiable = some false ∧
    (typeOf (.var "SIGNIFICANT_DISTANCE_METERS")).map CType.modifiable = some false ∧
    (typeOf (.var "LOG_MAX_INTERVAL_MS")).map CType.modifiable = some false ∧
    (typeOf (.var "knownNetworks")).map CType.modifiable = some false ∧
    (∀ i : Fin 2, (typeOf (.index (.var "knownNetworks") i)).map CType.modifiable
      = some false) ∧
    (∀ i : Fin 2, (typeOf (.member (.index (.var "knownNetworks") i) "ssid")).map
      CType.modifiable = some false) ∧
    (∀ i : Fin 2, (typeOf (.member (.index (.var "knownNetworks") i) "password")).map
      CType.modifiable = some false) := by
  decide

/-! ## Claims -/

/-- C1, evaluated on the code: each of the six string names is declared
`const char*`, a non-const pointer to const characters, so the statement
`NAME = "x";` is well-formed and afterwards the name denotes a different
string than the one the header initialised it with. -/
theorem C1_string_pointers_reassignable :
    (declarations.lookup "WIFI_AP_SSID" = some (.ptr (.const .char)) ∧
      initialStore (.var "WIFI_AP_SSID") = some (.str "UlTeRa_SpAcE") ∧
      valueAfterAssign initialStore (.var "WIFI_AP_SSID") (.str "x") = some (.str "x")) ∧
    (declarations.lookup "WIFI_AP_PASSWORD" = some (.ptr (.const .char)) ∧
      initialStore (.var "WIFI_AP_PASSWORD") = some (.str "12345678") ∧
      valueAfterAssign initialStore (.var "WIFI_AP_PASSWORD") (.str "x") = some (.str "x")) ∧
    (declarations.lookup "GPRS_APN" = some (.ptr (.const .char)) ∧
      initialStore (.var "GPRS_APN") = some (.str "internet") ∧
      valueAfterAssign initialStore (.var "GPRS_APN") (.str "x") = some (.str "x")) ∧
    (declarations.lookup "GPRS_USER" = some (.ptr (.const .char)) ∧
      initialStore (.var "GPRS_USER") = some (.str "") ∧
      valueAfterAssign initialStore (.var "GPRS_USER") (.str "x") = some (.str "x")) ∧
    (declarations.lookup "GPRS_PASSWORD" = some (.ptr (.const .char)) ∧
      initialStore (.var "GPRS_PASSWORD") = some (.str "") ∧
      valueAfterAssign initialStore (.var "GPRS_PASSWORD") (.str "x") = some (.str "x")) ∧
    (declarations.lookup "SERVER_URL" = some (.ptr (.const .char)) ∧
      initialStore (.var "SERVER_URL") = some (.str "http://yourserver.com/api/gps") ∧
      valueAfterAssign initialStore (.var "SERVER_URL") (.str "x") = some (.str "x")) := by
  decide

/-- C2: the access-point password has at least 8 characters or is empty. -/
theorem C2_ap_password_length :
    8 ≤ WIFI_AP_PASSWORD.length ∨ WIFI_AP_PASSWORD = "" := by
  decide

/-- C3: the server port lies in the range 1 to 65535. -/
theorem C3_server_port_range :
    1 ≤ SERVER_PORT ∧ SERVER_PORT ≤ 65535 := by
  decide

/-- C4: the server URL is scheme, then "://", then host, then an optional
path, with scheme "http" and host "yourserver.com", both non-empty; the
scheme is alphabetic, the host consists of letters, digits, dots and hyphens,
and the path is empty or starts with a slash. -/
theorem C4_server_url_scheme_host :
    ∃ scheme host path : String,
      SERVER_URL = scheme ++ "://" ++ host ++ path ∧
      scheme = "http" ∧ host = "yourserver.com" ∧
      scheme ≠ "" ∧ host ≠ "" ∧
      scheme.data.all Char.isAlpha = true ∧
      host.data.all (fun c => c.isAlphanum || c == '.' || c == '-') = true ∧
      (path = "" ∨ path.data.head? = some '/') :=
  ⟨"http", "yourserver.com", "/api/gps", by decide, rfl, rfl, by decide, by decide,
    by decide, by decide, Or.inr (by decide)⟩

/-- C5: both timing intervals are unsigned integers (they fit the 32-bit
`unsigned long`) strictly greater than 0. -/
theorem C5_timing_intervals_positive :
    (0 < DATA_SEND_INTERVAL_MS ∧ DATA_SEND_INTERVAL_MS ≤ ULONG_MAX) ∧
    (0 < GPRS_CHECK_INTERVAL_MS ∧ GPRS_CHECK_INTERVAL_MS ≤ ULONG_MAX) := by
  decide

/-- C6: the significant distance is at least 0 and the maximum log interval
is an unsigned integer strictly greater than 0. -/
theorem C6_gps_filter_bounds :
    0 ≤ SIGNIFICANT_DISTANCE_METERS ∧
    (0 < LOG_MAX_INTERVAL_MS ∧ LOG_MAX_INTERVAL_MS ≤ ULONG_MAX) := by
  refine ⟨?_, by decide⟩
  norm_num [SIGNIFICANT_DISTANCE_METERS]

/-- C7: for every index within knownNetworks, the ssid of that entry is a
non-empty string. -/
theorem C7_known_ssid_nonempty (i : Nat) (h : i < knownNetworks.size) :
    (knownNetworks.get ⟨i, h⟩).ssid ≠ "" := by
  revert i
  decide

/-- C7 at index 1, the last entry of the array. -/
theorem C7_known_ssid_nonempty_witness :
    ∃ h : 1 < knownNetworks.size, (knownNetworks.get ⟨1, h⟩).ssid ≠ "" :=
  ⟨by decide, C7_known_ssid_nonempty 1 (by decide)⟩

/-- C8: the APN is non-empty, and the GPRS user and password are the empty
string. -/
theorem C8_cellular_config :
    GPRS_APN ≠ "" ∧ GPRS_USER = "" ∧ GPRS_PASSWORD = "" := by
  decide

/-- C9: reading an array by ascending index returns exactly the initialiser
list it was built from, in order; for the header this is the two networks,
home first and office second, each ssid with its own password. -/
theorem C9_known_network_order :
    (∀ init : List KnownNetwork, readAscending init.toArray = init) ∧
    getKnownNetworks = knownNetworks.toList ∧
    getKnownNetworks =
      [⟨"YourHomeWiFi", "your-wifi-password"⟩, ⟨"YourOfficeWiFi", "office-password"⟩] ∧
    getKnownNetworks.length = 2 ∧
    getKnownNetworks[0]? = some ⟨"YourHomeWiFi", "your-wifi-password"⟩ ∧
    getKnownNetworks[1]? = some ⟨"YourOfficeWiFi", "office-password"⟩ := by
  refine ⟨fun init => ?_, readAscending_eq _, by decide, by decide, by decide, by decide⟩
  rw [readAscending_eq]

/-- C10: every SSID of the header is 1 to 32 bytes long, every password is
empty or 8 to 63 characters long, and the SSIDs of knownNetworks are pairwise
distinct. -/
theorem C10_wifi_credential_limits :
    (1 ≤ strlen WIFI_AP_SSID ∧ strlen WIFI_AP_SSID ≤ 32) ∧
    (∀ i : Fin knownNetworks.size,
      1 ≤ strlen (knownNetworks.get i).ssid ∧ strlen (knownNetworks.get i).ssid ≤ 32) ∧
    (WIFI_AP_PASSWORD = "" ∨
      (8 ≤ WIFI_AP_PASSWORD.length ∧ WIFI_AP_PASSWORD.length ≤ 63)) ∧
    (∀ i : Fin knownNetworks.size,
      (knownNetworks.get i).password = "" ∨
        (8 ≤ (knownNetworks.get i).password.length ∧
          (knownNetworks.get i).password.length ≤ 63)) ∧
    (knownNetworks.toList.map KnownNetwork.ssid).Nodup := by
  decide

end UlteraSpace
